import Mathlib

/-!
Verification development for `copyq_chat.py` (CopyQ Chat Assistant).

The definitions below are a shallow embedding of the decision logic of the
source file: the fallback chains of `ScreenshotCapture.capture_screenshot`,
`ImageUploader.upload_image` and `TextCapture.get_text_context`, the message
preparation and result handling of `OpenRouterAPI.chat_completion`, the
`/api/chat` route handler of `WebChatServer.setup_routes`, the context-merge
route `/api/context`, and the interpolation points of
`WebChatServer.generate_chat_html`.  External effects (subprocess calls,
HTTP transport, the JSON body of the completion response) are parameters of
the embedding: each strategy or network call is represented by its outcome.
-/

namespace CopyqChat

/-- Outcome of invoking a Python callable: a returned value (`val`) or a
raised exception (`exn`).  Every chain in the source catches exceptions
from its strategies, so `exn` never escapes a chain. -/
inductive PyResult (α : Type) where
  | val : α → PyResult α
  | exn : PyResult α
deriving DecidableEq

/-- Python truthiness of an `Optional[str]` value: `None` and the empty
string are falsy, every other string is truthy. -/
def pyTruthyOptStr : Option String → Bool
  | none => false
  | some s => s != ""

/-- `ScreenshotCapture.capture_screenshot` (src/copyq_chat.py:87-111),
abstracted over the outcome of each of the four methods, in order.  It
returns the list of method outcomes that were actually invoked together
with the result: the chain runs the methods in order, each at most once;
a method returning `True` stops the chain and the chain returns
`str(filepath)` (the file the successful method wrote); a `False` return
or a raised exception is caught and the next method is tried; when every
method fails the chain returns `None`. -/
def capture_screenshot (filepath : String) :
    List (PyResult Bool) → List (PyResult Bool) × Option String
  | [] => ([], none)
  | m :: rest =>
    match m with
    | .val true => ([m], some filepath)
    | .val false =>
      let r := capture_screenshot filepath rest
      (m :: r.1, r.2)
    | .exn =>
      let r := capture_screenshot filepath rest
      (m :: r.1, r.2)

/-- Success test of one upload service inside `ImageUploader.upload_image`
(src/copyq_chat.py:224-229): the return value of the service is bound to `url`
and the chain stops when `url` is truthy (a non-`None`, non-empty string). -/
def uploadSuccess : PyResult (Option String) → Option String
  | .val (some u) => if u != "" then some u else none
  | .val none => none
  | .exn => none

/-- `ImageUploader.upload_image` (src/copyq_chat.py:216-235), abstracted
over the outcome of each of the three services, in order.  Returns the
list of service outcomes actually invoked and the resulting URL: services
run in order, each at most once; a truthy returned URL stops the chain and
is returned; a falsy return or a raised exception is caught and the next
service is tried; when every service fails the chain returns `None`. -/
def upload_image :
    List (PyResult (Option String)) → List (PyResult (Option String)) × Option String
  | [] => ([], none)
  | s :: rest =>
    match uploadSuccess s with
    | some u => ([s], some u)
    | none =>
      let r := upload_image rest
      (s :: r.1, r.2)

/-- `TextCapture.get_text_context` (src/copyq_chat.py:202-209), abstracted
over the chain-level outcome of `get_selected_text` and
`get_clipboard_text` (both return `None` when all their internal attempts
fail, since they catch their own exceptions).  A truthy selected text is
returned; otherwise `clipboard or ""` degrades a falsy clipboard to the
empty string. -/
def get_text_context (selected clipboard : Option String) : String :=
  if pyTruthyOptStr selected then selected.getD ""
  else if pyTruthyOptStr clipboard then clipboard.getD ""
  else ""

/-- One element of a structured (multimodal) message content list, as built
at src/copyq_chat.py:324-327: a text part or an image-URL reference part. -/
inductive ContentPart where
  | text : String → ContentPart
  | imageUrl : String → ContentPart
deriving DecidableEq

/-- The value of the `content` key of a chat message: a plain string or a
structured list of parts. -/
inductive Content where
  | str : String → Content
  | parts : List ContentPart → Content
deriving DecidableEq

/-- A chat message dictionary `{role, content}`.  `content = none` models a
dictionary with no `content` key at all. -/
structure Message where
  role : String
  content : Option Content
deriving DecidableEq

/-- The static allow-list of multimodal-capable models inside
`OpenRouterAPI.chat_completion` (src/copyq_chat.py:306-318). -/
def multimodal_models : List String :=
  ["anthropic/claude-3.5-sonnet",
   "anthropic/claude-3.5-haiku",
   "anthropic/claude-3-haiku",
   "anthropic/claude-3-opus",
   "openai/gpt-4o",
   "openai/gpt-4o-mini",
   "openai/chatgpt-4o-latest",
   "meta-llama/llama-3.2-90b-vision-instruct",
   "meta-llama/llama-3.2-11b-vision-instruct",
   "x-ai/grok-2-vision-1212",
   "openrouter/sonoma-sky-alpha"]

/-- The message-preparation step of `OpenRouterAPI.chat_completion`
(src/copyq_chat.py:320-334).  `if image_url and messages and self.model in
multimodal_models`: rewrite the plain-string content of the first message into
a two-part structure.  `elif image_url`: access `messages[0]` (which
raises `IndexError` on an empty list, modelled by `.error ()`) and append
a bracketed textual note to a plain-string content.  Non-string contents
are left unchanged in both branches. -/
def prepareMessages (model : String) (image_url : Option String)
    (messages : List Message) : Except Unit (List Message) :=
  if pyTruthyOptStr image_url ∧ messages ≠ [] ∧ model ∈ multimodal_models then
    match messages with
    | [] => .error ()
    | first :: rest =>
      match first.content with
      | some (.str s) =>
        .ok ({ first with content := some (.parts
          [.text s, .imageUrl (image_url.getD "")]) } :: rest)
      | _ => .ok (first :: rest)
  else if pyTruthyOptStr image_url then
    match messages with
    | [] => .error ()
    | first :: rest =>
      match first.content with
      | some (.str s) =>
        .ok ({ first with content := some (.str
          (s ++ "\n\n[Screenshot available at: " ++ image_url.getD "" ++ "]")) } :: rest)
      | _ => .ok (first :: rest)
  else .ok messages

/-- The outcome of the `requests.post` call at src/copyq_chat.py:344: the
call raises (transport error or timeout), or it returns a response with a
status code and a body.  The body is abstracted to the list of
`choices[i].message.content` strings when the JSON parses and the
`choices` key is present; `none` models a malformed body. -/
inductive HttpOutcome where
  | transportError : HttpOutcome
  | response : Nat → Option (List String) → HttpOutcome
deriving DecidableEq

/-- The observable effect of one `OpenRouterAPI.chat_completion` call:
whether `requests.post` was reached, the outgoing `messages` payload when
it was, and the returned value (`none` is Python `None`). -/
structure ApiCall where
  sent : Bool
  payload : Option (List Message)
  result : Option String
deriving DecidableEq

/-- `OpenRouterAPI.chat_completion` (src/copyq_chat.py:297-359).  The whole
body runs under a catch-all `except` that returns `None`: an `IndexError`
in message preparation aborts before the request is sent; a transport
error, a non-200 status, a malformed body, or an empty `choices` list each
yield `None`; otherwise the message content of the first choice is returned. -/
def chat_completion (model : String) (messages : List Message)
    (image_url : Option String) (net : HttpOutcome) : ApiCall :=
  match prepareMessages model image_url messages with
  | .error _ => ⟨false, none, none⟩
  | .ok ms =>
    match net with
    | .transportError => ⟨true, some ms, none⟩
    | .response status body =>
      if status ≠ 200 then ⟨true, some ms, none⟩
      else
        match body with
        | none => ⟨true, some ms, none⟩
        | some [] => ⟨true, some ms, none⟩
        | some (c :: _) => ⟨true, some ms, some c⟩

/-- The fixed exit phrases of the `/api/chat` route
(src/copyq_chat.py:411). -/
def exitPhrases : List String := ["bye", "exit", "close", "quit"]

/-- Stand-in for `str(e)` of the `AttributeError` raised by
`messages[-1].get("content", "").lower()` when the content value is not a
string (src/copyq_chat.py:410): the exact interpreter text is irrelevant
to the contract of the route, which only needs a non-empty error string. -/
def attributeErrorMsg : String := "list object has no attribute lower"

/-- Python `str.lower()`, character by character (ASCII case mapping). -/
def pyLower (s : String) : String := ⟨s.data.map Char.toLower⟩

/-- Python `str.strip()`: drop leading and trailing whitespace. -/
def pyStrip (s : String) : String :=
  ⟨((s.data.dropWhile Char.isWhitespace).reverse.dropWhile Char.isWhitespace).reverse⟩

/-- `messages[-1].get("content", "").lower().strip()`
(src/copyq_chat.py:410): a missing `content` key defaults to the empty
string; a plain-string content is lowercased and stripped; a structured
(list) content has no `.lower` attribute and raises `AttributeError`,
modelled as `.error ()`. -/
def normalizeLast : Option Content → Except Unit String
  | none => .ok ""
  | some (.str s) => .ok (pyStrip (pyLower s))
  | some (.parts _) => .error ()

/-- The observable outcome of one `/api/chat` request: the HTTP status
(`jsonify` always answers 200), the JSON body fields `success`,
`response`, `error` and `exit` (`exitFlag`), whether the delayed
self-termination thread was scheduled, whether `chat_completion` was
invoked, and the image URL forwarded to it when it was. -/
structure ChatRouteResult where
  httpStatus : Nat
  success : Bool
  response : Option String
  error : Option String
  exitFlag : Bool
  shutdownScheduled : Bool
  relayInvoked : Bool
  forwardedImageUrl : Option (Option String)
deriving DecidableEq

/-- The relay step of the `/api/chat` route (src/copyq_chat.py:426-431):
call `chat_completion`, then `if response:` — a truthy (non-`None`,
non-empty) reply is a success payload, anything else becomes the
structured error payload. -/
def chatRelayStep (model : String) (image_url : Option String)
    (messages : List Message) (net : HttpOutcome) : ChatRouteResult :=
  let call := chat_completion model messages image_url net
  match call.result with
  | some r =>
    if r != "" then
      ⟨200, true, some r, none, false, false, true, some image_url⟩
    else
      ⟨200, false, none, some "No response from API", false, false, true, some image_url⟩
  | none => ⟨200, false, none, some "No response from API", false, false, true, some image_url⟩

/-- The `/api/chat` route handler (src/copyq_chat.py:402-434).  `if
messages:` — on a non-empty list the content of the last message is
normalized; an exception there is caught by the `except` of the route and
becomes an error payload; a normalized exit phrase schedules the shutdown
thread and answers the farewell payload with `exit: true`; otherwise (and
also on an empty message list) the relay step runs. -/
def chatRoute (model : String) (image_url : Option String)
    (messages : List Message) (net : HttpOutcome) : ChatRouteResult :=
  match messages.getLast? with
  | some last =>
    match normalizeLast last.content with
    | .error _ =>
      ⟨200, false, none, some attributeErrorMsg, false, false, false, none⟩
    | .ok s =>
      if s ∈ exitPhrases then
        ⟨200, true, some "👋 Goodbye! Chat session ended.", none, true, true, false, none⟩
      else
        chatRelayStep model image_url messages net
  | none => chatRelayStep model image_url messages net

/-- The live `context_data` dictionary of `WebChatServer`, as a map from
string keys to string values (`none` = key absent). -/
def ContextData := String → Option String

/-- Binding one key in the dictionary. -/
def setKey (ctx : ContextData) (k v : String) : ContextData :=
  fun q => if q = k then some v else ctx q

/-- `self.context_data.update(data)` of the `/api/context` route
(src/copyq_chat.py:440), for a posted JSON object modelled as an
association list applied left to right (a later duplicate key
overrides an earlier one, as in a Python dict literal). -/
def updateCtx (ctx : ContextData) (data : List (String × String)) : ContextData :=
  data.foldl (fun c kv => setKey c kv.1 kv.2) ctx

/-- Lookup in the posted object itself: the value of its last binding of
`k`, if any. -/
def dataGet (data : List (String × String)) (k : String) : Option String :=
  updateCtx (fun _ => none) data k

/-- Python `s or "None"` as used at the two context-box interpolation
points of the page template (src/copyq_chat.py:659,662). -/
def pyOrNone (s : String) : String :=
  if s = "" then "None" else s

/-- The interpolation points of `WebChatServer.generate_chat_html`
(src/copyq_chat.py:455-466,654-686): `selected_text` and `image_url` are
read from `context_data` with default `""`; the session id and the two
context values appear in the header and context box (falsy values shown
as `None`), and the two raw values are embedded verbatim in the script
constants of the page.  The static HTML/CSS/JS text between the interpolation
points is elided. -/
def generate_chat_html (session_id : String) (ctx : ContextData) : String :=
  let selected_text := (ctx "selected_text").getD ""
  let screenshot_url := (ctx "image_url").getD ""
  "<p>Session: " ++ session_id
    ++ " | Context: Captured</p><span class=\"context-label\">Selected Text:</span> "
    ++ pyOrNone selected_text
    ++ "<span class=\"context-label\">Screenshot:</span> "
    ++ pyOrNone screenshot_url
    ++ "<script>const selectedText = \x60"
    ++ selected_text
    ++ "\x60;const screenshotUrl = \x60"
    ++ screenshot_url
    ++ "\x60;</script>"

/-- The `/api/chat` route as the server runs it: the image URL forwarded
to the relay is `self.context_data.get("image_url")`
(src/copyq_chat.py:426). -/
def serverChatRoute (ctx : ContextData) (model : String)
    (messages : List Message) (net : HttpOutcome) : ChatRouteResult :=
  chatRoute model (ctx "image_url") messages net

/-- `t` occurs as a contiguous substring of `s`. -/
def containsStr (s t : String) : Prop := t.data <:+: s.data

/-- Failure of one screenshot method at chain level: it returned `False`
or raised. -/
def screenshotFails (r : PyResult Bool) : Prop := r = .val false ∨ r = .exn

/-- Failure of one upload service at chain level: its return value is not
a truthy URL. -/
def uploadFails (r : PyResult (Option String)) : Prop := uploadSuccess r = none

/-- The content rewrite `chat_completion` applies to the first message
when an image URL is supplied (src/copyq_chat.py:320-334), extracted as a
function of the model, the URL and the original content: a plain-string
content becomes the two-part structure on an allow-listed model and the
annotated string otherwise; any other content is unchanged. -/
def rewriteContent (model url : String) : Option Content → Option Content
  | some (.str s) =>
    if model ∈ multimodal_models then
      some (.parts [.text s, .imageUrl url])
    else
      some (.str (s ++ "\n\n[Screenshot available at: " ++ url ++ "]"))
  | c => c

/-- Whether a content value is a structured (multimodal) parts list. -/
def isStructured : Option Content → Bool
  | some (.parts _) => true
  | _ => false

/-- Whether a content value is a plain string. -/
def isPlainStr : Option Content → Bool
  | some (.str _) => true
  | _ => false

/-- No message in the list carries structured multimodal content parts. -/
def noStructuredParts (ms : List Message) : Bool :=
  ms.all (fun m => !(isStructured m.content))

/-! ### Helper lemmas -/

/-- Running the screenshot chain past a prefix of failing methods invokes
each of them once, in order, and continues with the rest of the chain. -/
theorem capture_screenshot_skips_failed (fp : String) (pre rest : List (PyResult Bool))
    (h : ∀ r ∈ pre, screenshotFails r) :
    capture_screenshot fp (pre ++ rest)
      = (pre ++ (capture_screenshot fp rest).1, (capture_screenshot fp rest).2) := by
  induction pre with
  | nil => simp
  | cons a pre ih =>
    have ha := h a (List.mem_cons_self a pre)
    have h' : ∀ r ∈ pre, screenshotFails r := fun r hr => h r (List.mem_cons_of_mem a hr)
    rcases ha with h1 | h1 <;> subst h1 <;>
      simp [capture_screenshot, ih h']

/-- Running the upload chain past a prefix of failing services invokes each
of them once, in order, and continues with the rest of the chain. -/
theorem upload_image_skips_failed (pre rest : List (PyResult (Option String)))
    (h : ∀ r ∈ pre, uploadFails r) :
    upload_image (pre ++ rest)
      = (pre ++ (upload_image rest).1, (upload_image rest).2) := by
  induction pre with
  | nil => simp
  | cons a pre ih =>
    have ha := h a (List.mem_cons_self a pre)
    have h' : ∀ r ∈ pre, uploadFails r := fun r hr => h r (List.mem_cons_of_mem a hr)
    simp only [uploadFails] at ha
    simp [upload_image, ha, ih h']

/-- String append acts as list append on the underlying character data. -/
theorem string_data_append (a b : String) : (a ++ b).data = a.data ++ b.data := rfl

/-- A string contains itself. -/
theorem containsStr_refl (t : String) : containsStr t t := List.infix_rfl

/-- A substring of `b` is a substring of `a ++ b`. -/
theorem containsStr_left (a b t : String) (h : containsStr b t) :
    containsStr (a ++ b) t := by
  unfold containsStr at *
  rw [string_data_append]
  exact h.trans (List.suffix_append a.data b.data).isInfix

/-- A substring of `a` is a substring of `a ++ b`. -/
theorem containsStr_right (a b t : String) (h : containsStr a t) :
    containsStr (a ++ b) t := by
  unfold containsStr at *
  rw [string_data_append]
  exact h.trans (List.prefix_append a.data b.data).isInfix

/-- When message preparation succeeds, the request is sent and its payload
is the prepared message list, whatever the network outcome. -/
theorem chat_completion_payload_ok (model : String) (messages ms : List Message)
    (image_url : Option String) (net : HttpOutcome)
    (hp : prepareMessages model image_url messages = .ok ms) :
    (chat_completion model messages image_url net).payload = some ms := by
  cases net with
  | transportError => simp [chat_completion, hp]
  | response status body =>
    simp only [chat_completion, hp]
    split
    · rfl
    · cases body with
      | none => rfl
      | some cs => cases cs <;> rfl

/-- On a non-empty message list and a truthy image URL, message
preparation succeeds and rewrites exactly the content of the first message by
`rewriteContent`. -/
theorem prepareMessages_rewrite (model url : String) (first : Message)
    (rest : List Message) (hurl : url ≠ "") :
    prepareMessages model (some url) (first :: rest)
      = .ok ({ first with content := rewriteContent model url first.content } :: rest) := by
  obtain ⟨role, content⟩ := first
  by_cases hm : model ∈ multimodal_models <;>
    rcases content with _ | s | l <;>
      simp [prepareMessages, pyTruthyOptStr, hurl, hm, rewriteContent]

/-! ### Claim theorems -/

/-- C1: for every fallback chain (screenshot capture with its methods,
image upload with its services) and every ordered list of strategies, if
strategy `k` is the first to succeed then strategies `k+1..n` are never
invoked, strategies `1..k-1` were each invoked exactly once (they form the
invocation trace, in order) and failed, and the result of the chain is the
result of strategy `k` (the captured file for the screenshot chain, the returned URL
for the upload chain). -/
theorem fallback_chain_first_success :
    (∀ (fp : String) (pre post : List (PyResult Bool)),
      (∀ r ∈ pre, screenshotFails r) →
      capture_screenshot fp (pre ++ .val true :: post)
        = (pre ++ [.val true], some fp))
    ∧ (∀ (pre post : List (PyResult (Option String)))
        (s : PyResult (Option String)) (url : String),
      (∀ r ∈ pre, uploadFails r) → uploadSuccess s = some url →
      upload_image (pre ++ s :: post) = (pre ++ [s], some url)) := by
  constructor
  · intro fp pre post h
    rw [capture_screenshot_skips_failed fp pre (.val true :: post) h]
    simp [capture_screenshot]
  · intro pre post s url h hs
    rw [upload_image_skips_failed pre (s :: post) h]
    simp [upload_image, hs]

/-- Witness for C1 at a concrete input: the third screenshot method is the
first to return `True`; the second upload service is the first to return a
truthy URL. -/
theorem fallback_chain_first_success_witness :
    capture_screenshot "shot.png" [.exn, .val false, .val true, .exn]
      = ([.exn, .val false, .val true], some "shot.png")
    ∧ upload_image [.exn, .val (some "https://u/1"), .val none]
      = ([.exn, .val (some "https://u/1")], some "https://u/1") := by
  constructor
  · exact fallback_chain_first_success.1 "shot.png" [.exn, .val false] [.exn]
      (by simp [screenshotFails])
  · exact fallback_chain_first_success.2 [.exn] [.val none]
      (.val (some "https://u/1")) "https://u/1"
      (by simp [uploadFails, uploadSuccess]) (by decide)

/-- C2: when every strategy of a chain fails (including by raising), no
exception escapes and the public result of the chain is `None` for screenshot
capture and image upload, while the text-capture chain instead returns the
empty string. -/
theorem fallback_chain_exhausted :
    (∀ (fp : String) (methods : List (PyResult Bool)),
      (∀ r ∈ methods, screenshotFails r) →
      capture_screenshot fp methods = (methods, none))
    ∧ (∀ (services : List (PyResult (Option String))),
      (∀ r ∈ services, uploadFails r) →
      upload_image services = (services, none))
    ∧ (∀ (selected clipboard : Option String),
      pyTruthyOptStr selected = false → pyTruthyOptStr clipboard = false →
      get_text_context selected clipboard = "") := by
  refine ⟨?_, ?_, ?_⟩
  · intro fp ms h
    have := capture_screenshot_skips_failed fp ms [] h
    simpa [capture_screenshot] using this
  · intro ss h
    have := upload_image_skips_failed ss [] h
    simpa [upload_image] using this
  · intro sel clip h1 h2
    simp [get_text_context, h1, h2]

/-- Witness for C2 at concrete inputs: all screenshot methods fail, all
upload services fail, and both text strategies yield a falsy value. -/
theorem fallback_chain_exhausted_witness :
    capture_screenshot "shot.png" [.val false, .exn] = ([.val false, .exn], none)
    ∧ upload_image [.exn, .val none, .val (some "")]
        = ([.exn, .val none, .val (some "")], none)
    ∧ get_text_context none (some "") = "" := by
  refine ⟨?_, ?_, ?_⟩
  · exact fallback_chain_exhausted.1 "shot.png" _ (by simp [screenshotFails])
  · exact fallback_chain_exhausted.2.1 _ (by simp [uploadFails, uploadSuccess])
  · exact fallback_chain_exhausted.2.2 none (some "") (by decide) (by decide)

/-- C3: for every non-empty conversation whose first message carries plain
text and every non-empty image URL, if the configured model is on the
multimodal allow-list then the content of the first outgoing message sent by
`chat_completion` is a two-part structure of exactly one text part equal
to the original text and one image-reference part with exactly that URL;
the remaining messages are sent as given. -/
theorem chat_completion_multimodal_rewrite (model url t role : String)
    (rest : List Message) (net : HttpOutcome)
    (hurl : url ≠ "") (hm : model ∈ multimodal_models) :
    (chat_completion model (⟨role, some (.str t)⟩ :: rest) (some url) net).payload
      = some (⟨role, some (.parts [.text t, .imageUrl url])⟩ :: rest) := by
  apply chat_completion_payload_ok
  simp [prepareMessages, pyTruthyOptStr, hurl, hm]

/-- Witness for C3: a model from the allow-list with a concrete URL. -/
theorem chat_completion_multimodal_rewrite_witness :
    (chat_completion "openai/gpt-4o" [⟨"user", some (.str "hello")⟩]
        (some "https://img.example/s.png") .transportError).payload
      = some [⟨"user", some (.parts
          [.text "hello", .imageUrl "https://img.example/s.png"])⟩] :=
  chat_completion_multimodal_rewrite "openai/gpt-4o" "https://img.example/s.png"
    "hello" "user" [] .transportError (by decide) (by decide)

/-- C4: for every non-empty conversation whose first message carries plain
text and every non-empty image URL, if the configured model is not on the
multimodal allow-list then `chat_completion` appends the bracketed textual
note containing the literal URL substring to the text of the first message, and
(provided the incoming messages carry none) no structured multimodal
content parts appear in any outgoing message. -/
theorem chat_completion_text_annotation (model url t role : String)
    (rest : List Message) (net : HttpOutcome)
    (hurl : url ≠ "") (hm : model ∉ multimodal_models)
    (hrest : noStructuredParts rest = true) :
    (chat_completion model (⟨role, some (.str t)⟩ :: rest) (some url) net).payload
      = some (⟨role, some (.str
          (t ++ "\n\n[Screenshot available at: " ++ url ++ "]"))⟩ :: rest)
    ∧ containsStr (t ++ "\n\n[Screenshot available at: " ++ url ++ "]") url
    ∧ noStructuredParts
        (⟨role, some (.str (t ++ "\n\n[Screenshot available at: " ++ url ++ "]"))⟩
          :: rest) = true := by
  refine ⟨?_, ?_, ?_⟩
  · apply chat_completion_payload_ok
    simp [prepareMessages, pyTruthyOptStr, hurl, hm]
  · exact containsStr_right _ _ _ (containsStr_left _ _ _ (containsStr_refl url))
  · simp only [noStructuredParts, List.all_cons, Bool.and_eq_true] at hrest ⊢
    exact ⟨rfl, hrest⟩

/-- Witness for C4: a model absent from the allow-list with a concrete
URL and a one-message tail without structured parts. -/
theorem chat_completion_text_annotation_witness :
    (chat_completion "openai/gpt-3.5-turbo"
        [⟨"user", some (.str "hi")⟩, ⟨"user", some (.str "more")⟩]
        (some "https://img.example/s.png") .transportError).payload
      = some [⟨"user", some (.str
          ("hi" ++ "\n\n[Screenshot available at: " ++ "https://img.example/s.png" ++ "]"))⟩,
          ⟨"user", some (.str "more")⟩]
    ∧ containsStr
        ("hi" ++ "\n\n[Screenshot available at: " ++ "https://img.example/s.png" ++ "]")
        "https://img.example/s.png"
    ∧ noStructuredParts
        [⟨"user", some (.str
          ("hi" ++ "\n\n[Screenshot available at: " ++ "https://img.example/s.png" ++ "]"))⟩,
          ⟨"user", some (.str "more")⟩] = true :=
  chat_completion_text_annotation "openai/gpt-3.5-turbo" "https://img.example/s.png"
    "hi" "user" [⟨"user", some (.str "more")⟩] .transportError
    (by decide) (by decide) (by decide)

/-- C8 counterexample: on an empty message list with a non-empty image URL
and the allow-listed model `openai/gpt-4o`, the image handling is not
skipped by a non-emptiness guard: the access `messages[0]` of the
textual-annotation branch raises, so even with a well-formed 200 network
outcome available no request is sent and `None` is returned. -/
theorem chat_completion_empty_allowlisted_cex :
    "openai/gpt-4o" ∈ multimodal_models
    ∧ chat_completion "openai/gpt-4o" [] (some "https://img.example/s.png")
        (.response 200 (some ["reply"])) = ⟨false, none, none⟩ := by
  exact ⟨by decide, by decide⟩

/-- C8 (amended): `chat_completion` never raises; on an empty message list
with a non-empty image URL, whatever the model, the non-emptiness guard of
the multimodal branch fails, control reaches the textual-annotation branch,
its access to the first message raises, the catch-all handler catches the
exception, and `None` is returned without any request being sent. -/
theorem chat_completion_empty_messages_image (model url : String)
    (net : HttpOutcome) (hurl : url ≠ "") :
    chat_completion model [] (some url) net = ⟨false, none, none⟩ := by
  have hp : prepareMessages model (some url) ([] : List Message) = .error () := by
    simp [prepareMessages, pyTruthyOptStr, hurl]
  simp [chat_completion, hp]

/-- Witness for the amended C8 at a concrete input. -/
theorem chat_completion_empty_messages_image_witness :
    chat_completion "anthropic/claude-3-opus" [] (some "https://img.example/s.png")
      .transportError = ⟨false, none, none⟩ :=
  chat_completion_empty_messages_image "anthropic/claude-3-opus"
    "https://img.example/s.png" .transportError (by decide)

/-- C9: frame property of the image rewrite — for every non-empty
conversation and non-empty image URL, whichever branch `chat_completion`
takes, only the content field of the first message changes (its role and
every later message are sent unchanged), and when that content value is
not a plain string no rewrite occurs at all. -/
theorem chat_completion_rewrite_frame (model url : String) (first : Message)
    (rest : List Message) (net : HttpOutcome) (hurl : url ≠ "") :
    (chat_completion model (first :: rest) (some url) net).payload
      = some ({ first with content := rewriteContent model url first.content } :: rest)
    ∧ (isPlainStr first.content = false →
        { first with content := rewriteContent model url first.content } = first) := by
  refine ⟨chat_completion_payload_ok _ _ _ _ net
    (prepareMessages_rewrite model url first rest hurl), ?_⟩
  intro hns
  obtain ⟨role, content⟩ := first
  rcases content with _ | s | l
  · simp [rewriteContent]
  · simp [isPlainStr] at hns
  · simp [rewriteContent]

/-- Witness for C9: a first message with structured content is sent
entirely unchanged, and the tail is preserved. -/
theorem chat_completion_rewrite_frame_witness :
    (chat_completion "m" [⟨"user", some (.parts [])⟩, ⟨"user", some (.str "q")⟩]
        (some "https://u") .transportError).payload
      = some ({ (⟨"user", some (.parts [])⟩ : Message) with
          content := rewriteContent "m" "https://u" (some (.parts [])) }
          :: [⟨"user", some (.str "q")⟩])
    ∧ { (⟨"user", some (.parts [])⟩ : Message) with
          content := rewriteContent "m" "https://u" (some (.parts [])) }
        = (⟨"user", some (.parts [])⟩ : Message) := by
  have h := chat_completion_rewrite_frame "m" "https://u" ⟨"user", some (.parts [])⟩
    [⟨"user", some (.str "q")⟩] .transportError (by decide)
  exact ⟨h.1, h.2 (by decide)⟩

/-- The relay step always answers HTTP 200, records that the relay was
invoked, and forwards exactly the image URL it was given. -/
theorem chatRelayStep_shape (model : String) (u : Option String)
    (messages : List Message) (net : HttpOutcome) :
    (chatRelayStep model u messages net).forwardedImageUrl = some u
    ∧ (chatRelayStep model u messages net).relayInvoked = true := by
  cases hres : (chat_completion model messages u net).result with
  | none => simp [chatRelayStep, hres]
  | some r => by_cases hr : r != "" <;> simp [chatRelayStep, hres, hr]

/-- Whenever the route invoked the relay, it forwarded exactly the image
URL read from the context. -/
theorem chatRoute_forwarded_of_invoked (model : String) (u : Option String)
    (messages : List Message) (net : HttpOutcome)
    (h : (chatRoute model u messages net).relayInvoked = true) :
    (chatRoute model u messages net).forwardedImageUrl = some u := by
  cases hl : messages.getLast? with
  | none => simp [chatRoute, hl, (chatRelayStep_shape model u messages net).1]
  | some last =>
    cases hn : normalizeLast last.content with
    | error e => simp [chatRoute, hl, hn] at h
    | ok s =>
      by_cases hs : s ∈ exitPhrases
      · simp [chatRoute, hl, hn, hs] at h
      · simp [chatRoute, hl, hn, hs, (chatRelayStep_shape model u messages net).1]

/-- Dictionary update semantics: after `update`, a key reads from the
posted object when it binds the key and from the old context otherwise. -/
theorem updateCtx_get (ctx : ContextData) (data : List (String × String))
    (k : String) :
    updateCtx ctx data k
      = match dataGet data k with
        | some v => some v
        | none => ctx k := by
  induction data generalizing ctx with
  | nil => simp [updateCtx, dataGet]
  | cons kv rest ih =>
    have l1 : updateCtx ctx (kv :: rest) = updateCtx (setKey ctx kv.1 kv.2) rest := rfl
    have l2 : dataGet (kv :: rest) k
        = updateCtx (setKey (fun _ => none) kv.1 kv.2) rest k := rfl
    rw [l1, l2, ih (setKey ctx kv.1 kv.2), ih (setKey (fun _ => none) kv.1 kv.2)]
    cases hd : dataGet rest k with
    | some v => simp
    | none =>
      by_cases hk : k = kv.1 <;> simp [setKey, hk]

/-- A key bound by the posted object reads back exactly the posted value
after the merge. -/
theorem updateCtx_lookup (ctx : ContextData) (data : List (String × String))
    (k v : String) (h : dataGet data k = some v) :
    updateCtx ctx data k = some v := by
  rw [updateCtx_get, h]

/-- C5: a POST to `/api/chat` whose non-empty message list ends in a
message whose content, lowercased and stripped, is one of the exit
phrases, answers HTTP 200 with `success: true`, `exit: true` and the
farewell response, schedules the delayed self-termination, and never
invokes the chat relay. -/
theorem chat_route_exit_phrase (model : String) (image_url : Option String)
    (messages : List Message) (net : HttpOutcome) (last : Message) (s : String)
    (hlast : messages.getLast? = some last)
    (hc : last.content = some (.str s))
    (hs : pyStrip (pyLower s) ∈ exitPhrases) :
    chatRoute model image_url messages net
      = ⟨200, true, some "👋 Goodbye! Chat session ended.", none, true, true, false, none⟩ := by
  simp [chatRoute, hlast, normalizeLast, hc, hs]

/-- Witness for C5: the single message `"  QUIT "` normalizes to `quit`. -/
theorem chat_route_exit_phrase_witness :
    chatRoute "m" none [⟨"user", some (.str "  QUIT ")⟩] .transportError
      = ⟨200, true, some "👋 Goodbye! Chat session ended.", none, true, true, false, none⟩ :=
  chat_route_exit_phrase "m" none _ .transportError
    ⟨"user", some (.str "  QUIT ")⟩ "  QUIT " (by decide) (by decide) (by decide)

/-- C6: when the chat relay yields no result (transport error, non-200
status, malformed body, or empty choices), the `/api/chat` route raises
nothing, answers HTTP 200 with `success: false` and a non-empty error
string, and schedules no shutdown, so the endpoint stays active. -/
theorem chat_route_relay_failure (model : String) (image_url : Option String)
    (messages : List Message) (net : HttpOutcome)
    (hinv : messages = [] ∨ ∃ last s, messages.getLast? = some last
        ∧ normalizeLast last.content = .ok s ∧ s ∉ exitPhrases)
    (hfail : (chat_completion model messages image_url net).result = none) :
    chatRoute model image_url messages net
      = ⟨200, false, none, some "No response from API", false, false, true, some image_url⟩
    ∧ "No response from API" ≠ "" := by
  refine ⟨?_, by decide⟩
  have hstep : chatRelayStep model image_url messages net
      = ⟨200, false, none, some "No response from API", false, false, true, some image_url⟩ := by
    simp [chatRelayStep, hfail]
  rcases hinv with h | ⟨last, s, h1, h2, h3⟩
  · subst h
    simpa [chatRoute] using hstep
  · simp [chatRoute, h1, h2, h3, hstep]

/-- Witness for C6: a 500 status with a malformed body on a non-exit
message. -/
theorem chat_route_relay_failure_witness :
    chatRoute "m" (some "https://u") [⟨"user", some (.str "hi")⟩] (.response 500 none)
      = ⟨200, false, none, some "No response from API", false, false, true,
          some (some "https://u")⟩
    ∧ "No response from API" ≠ "" :=
  chat_route_relay_failure "m" (some "https://u") _ _
    (Or.inr ⟨⟨"user", some (.str "hi")⟩, "hi", by decide, by rfl, by decide⟩)
    (by decide)

/-- C7: values merged into the live context via `/api/context` are exactly
reflected afterwards — the next page render contains the merged
`selected_text` and `image_url` values verbatim, and the next `/api/chat`
request that reaches the relay forwards exactly the merged `image_url`. -/
theorem context_roundtrip (ctx : ContextData) (data : List (String × String))
    (session_id v1 v2 model : String) (messages : List Message) (net : HttpOutcome)
    (h1 : dataGet data "selected_text" = some v1)
    (h2 : dataGet data "image_url" = some v2)
    (hinv : (serverChatRoute (updateCtx ctx data) model messages net).relayInvoked = true) :
    containsStr (generate_chat_html session_id (updateCtx ctx data)) v1
    ∧ containsStr (generate_chat_html session_id (updateCtx ctx data)) v2
    ∧ (serverChatRoute (updateCtx ctx data) model messages net).forwardedImageUrl
        = some (some v2) := by
  have hs := updateCtx_lookup ctx data _ _ h1
  have hi := updateCtx_lookup ctx data _ _ h2
  refine ⟨?_, ?_, ?_⟩
  · simp only [generate_chat_html, hs, hi, Option.getD_some]
    exact containsStr_right _ _ _ (containsStr_right _ _ _ (containsStr_right _ _ _
      (containsStr_left _ _ _ (containsStr_refl v1))))
  · simp only [generate_chat_html, hs, hi, Option.getD_some]
    exact containsStr_right _ _ _ (containsStr_left _ _ _ (containsStr_refl v2))
  · have h := chatRoute_forwarded_of_invoked model ((updateCtx ctx data) "image_url")
      messages net hinv
    simpa [serverChatRoute, hi] using h

/-- Witness for C7 at a concrete merge into an empty context. -/
theorem context_roundtrip_witness :
    containsStr
      (generate_chat_html "1" (updateCtx (fun _ => none)
        [("selected_text", "hello"), ("image_url", "https://u/p.png")])) "hello"
    ∧ containsStr
      (generate_chat_html "1" (updateCtx (fun _ => none)
        [("selected_text", "hello"), ("image_url", "https://u/p.png")])) "https://u/p.png"
    ∧ (serverChatRoute (updateCtx (fun _ => none)
        [("selected_text", "hello"), ("image_url", "https://u/p.png")])
        "m" [⟨"user", some (.str "hi")⟩] .transportError).forwardedImageUrl
      = some (some "https://u/p.png") :=
  context_roundtrip (fun _ => none)
    [("selected_text", "hello"), ("image_url", "https://u/p.png")]
    "1" "hello" "https://u/p.png" "m" [⟨"user", some (.str "hi")⟩] .transportError
    (by decide) (by decide) (by decide)

/-- C10: a POST to `/api/chat` whose last message carries a non-string
content value makes the exit-phrase normalization raise; the handler of
the route catches it and answers HTTP 200 with `success: false` and a
non-empty error, without invoking the relay and without scheduling
termination.  A last message with no content key at all normalizes to the
empty string, matches no exit phrase, and is forwarded to the relay. -/
theorem chat_route_nonstring_last_content (model : String)
    (image_url : Option String) (net : HttpOutcome) :
    (∀ (messages : List Message) (last : Message) (l : List ContentPart),
      messages.getLast? = some last → last.content = some (.parts l) →
      chatRoute model image_url messages net
        = ⟨200, false, none, some attributeErrorMsg, false, false, false, none⟩)
    ∧ attributeErrorMsg ≠ ""
    ∧ (∀ (messages : List Message) (last : Message),
      messages.getLast? = some last → last.content = none →
      (chatRoute model image_url messages net).relayInvoked = true) := by
  refine ⟨?_, by decide, ?_⟩
  · intro msgs last l hl hc
    simp [chatRoute, hl, normalizeLast, hc]
  · intro msgs last hl hc
    have hmem : "" ∉ exitPhrases := by decide
    simp [chatRoute, hl, normalizeLast, hc, hmem,
      (chatRelayStep_shape model image_url msgs net).2]

/-- Witness for C10: a structured-content last message yields the error
payload; a content-free last message reaches the relay. -/
theorem chat_route_nonstring_last_content_witness :
    chatRoute "m" none [⟨"user", some (.parts [])⟩] .transportError
      = ⟨200, false, none, some attributeErrorMsg, false, false, false, none⟩
    ∧ attributeErrorMsg ≠ ""
    ∧ (chatRoute "m" none [⟨"user", (none : Option Content)⟩]
        .transportError).relayInvoked = true := by
  have h := chat_route_nonstring_last_content "m" none .transportError
  refine ⟨h.1 [⟨"user", some (.parts [])⟩] ⟨"user", some (.parts [])⟩ []
      (by decide) (by decide),
    h.2.1,
    h.2.2 [⟨"user", (none : Option Content)⟩] ⟨"user", (none : Option Content)⟩
      (by decide) (by decide)⟩

end CopyqChat
